import Mathlib

/-!
Verification of the Boussole geo-economic intelligence engine
(backend/app/services/geo_cache_service.py, geo_intelligence_service.py,
demand_intelligence_service.py).

Numbers that the Python code holds in floats are modelled as exact
rationals (`ℚ`) where the computation is rational, and as reals (`ℝ`)
where `math.log10` enters.  Python's `round` (banker's rounding, ties to
even) is modelled by `pyround`; `round(x, n)` by `pyround (x * 10^n) / 10^n`.
Database and network effects are modelled by explicit environment records
holding the values the service would have fetched, with `Option` encoding
the fallback ("data unavailable") paths, and the Redis handle as an
explicit `Option` store passed through each call.
-/

namespace Boussole

section Rounding

variable {α : Type} [LinearOrderedField α] [FloorRing α] [DecidableEq α]

/-- Python's built-in `round` to the nearest integer, ties to even
(banker's rounding).  On non-ties it agrees with Mathlib's `round`
(which is `⌊x + 1/2⌋`). -/
def pyround (x : α) : ℤ :=
  if Int.fract x = 1 / 2 then (if Even ⌊x⌋ then ⌊x⌋ else ⌊x⌋ + 1) else round x

theorem pyround_intCast (n : ℤ) : pyround (n : α) = n := by
  have h : Int.fract (n : α) = 0 := Int.fract_intCast n
  have h2 : (0 : α) ≠ 1 / 2 := by norm_num
  simp [pyround, h, h2, round_intCast]

theorem floor_le_pyround (x : α) : ⌊x⌋ ≤ pyround x := by
  unfold pyround
  split
  · split
    · exact le_refl _
    · exact Int.le_add_one (le_refl _)
  · rw [round_eq]
    exact Int.floor_le_floor (by linarith)

theorem pyround_le_floor_add_one (x : α) : pyround x ≤ ⌊x⌋ + 1 := by
  unfold pyround
  split
  · split
    · exact Int.le_add_one (le_refl _)
    · exact le_refl _
  · rw [round_eq]
    have h : ⌊x + 1 / 2⌋ ≤ ⌊x + 1⌋ := Int.floor_le_floor (by linarith)
    simpa [Int.floor_add_one] using h

theorem pyround_mono {x y : α} (hxy : x ≤ y) : pyround x ≤ pyround y := by
  rcases lt_or_eq_of_le (Int.floor_le_floor hxy) with hf | hf
  · calc pyround x ≤ ⌊x⌋ + 1 := pyround_le_floor_add_one x
      _ ≤ ⌊y⌋ := hf
      _ ≤ pyround y := floor_le_pyround y
  · by_cases hx : Int.fract x = 1 / 2 <;> by_cases hy : Int.fract y = 1 / 2
    · have hxval : x = y := by
        have h1 : x = ⌊x⌋ + Int.fract x := (Int.floor_add_fract x).symm
        have h2 : y = ⌊y⌋ + Int.fract y := (Int.floor_add_fract y).symm
        rw [h1, h2, hx, hy, hf]
      rw [hxval]
    · -- x is a tie, y is not: y exceeds ⌊y⌋ + 1/2, so round y = ⌊y⌋ + 1
      have hxe : x = (⌊x⌋ : α) + 1 / 2 := by
        rw [← hx]; exact (Int.floor_add_fract x).symm
      have hyge : ((⌊y⌋ : α) + 1 / 2) ≤ y := by rw [← hf, ← hxe]; exact hxy
      have hygt : ((⌊y⌋ : α) + 1 / 2) < y := by
        rcases lt_or_eq_of_le hyge with h | h
        · exact h
        · exfalso
          apply hy
          rw [← h, Int.fract_int_add]
          exact Int.fract_eq_self.mpr (by norm_num)
      have hry : pyround y = ⌊y⌋ + 1 := by
        have hlt := Int.lt_floor_add_one y
        unfold pyround
        rw [if_neg hy, round_eq]
        apply Int.floor_eq_iff.mpr
        constructor
        · push_cast; linarith
        · push_cast; linarith
      rw [hry, ← hf]
      exact pyround_le_floor_add_one x
    · -- y is a tie, x is not: x is below ⌊x⌋ + 1/2, so round x = ⌊x⌋
      have hye : y = (⌊y⌋ : α) + 1 / 2 := by
        rw [← hy]; exact (Int.floor_add_fract y).symm
      have hxle : x ≤ ((⌊x⌋ : α) + 1 / 2) := by rw [hf, ← hye]; exact hxy
      have hxlt : x < (⌊x⌋ : α) + 1 / 2 := by
        rcases lt_or_eq_of_le hxle with h | h
        · exact h
        · exfalso
          apply hx
          rw [h, Int.fract_int_add]
          exact Int.fract_eq_self.mpr (by norm_num)
      have hrx : pyround x = ⌊x⌋ := by
        have hfl := Int.floor_le x
        unfold pyround
        rw [if_neg hx, round_eq]
        apply Int.floor_eq_iff.mpr
        constructor
        · linarith
        · linarith
      rw [hrx, hf]
      exact floor_le_pyround y
    · unfold pyround
      rw [if_neg hx, if_neg hy, round_eq, round_eq]
      exact Int.floor_le_floor (by linarith)

/-- Clamping an already-rounded value to integer bounds agrees with rounding
the clamped value: `min b (max a (pyround x)) = pyround (min b (max a x))`. -/
theorem pyround_clamp (a b : ℤ) (hab : a ≤ b) (x : α) :
    min b (max a (pyround x)) = pyround (min (b : α) (max (a : α) x)) := by
  have habα : (a : α) ≤ (b : α) := by exact_mod_cast hab
  rcases le_total x (a : α) with h | h
  · have hmax : max (a : α) x = (a : α) := max_eq_left h
    have hle : pyround x ≤ a := by
      calc pyround x ≤ pyround (a : α) := pyround_mono h
        _ = a := pyround_intCast a
    rw [hmax, min_eq_right habα, pyround_intCast, max_eq_left hle, min_eq_right hab]
  · rcases le_total (b : α) x with h2 | h2
    · have hge : b ≤ pyround x := by
        calc (b : ℤ) = pyround (b : α) := (pyround_intCast b).symm
          _ ≤ pyround x := pyround_mono h2
      have hrhs : min (b : α) (max (a : α) x) = (b : α) := by
        rw [max_eq_right h]; exact min_eq_left h2
      have hmax2 : max a (pyround x) = pyround x := max_eq_right (le_trans hab hge)
      rw [hrhs, pyround_intCast, hmax2, min_eq_left hge]
    · have hmax : max (a : α) x = x := max_eq_right h
      have hmin : min (b : α) x = x := min_eq_right h2
      rw [hmax, hmin]
      have hge : a ≤ pyround x := by
        calc (a : ℤ) = pyround (a : α) := (pyround_intCast a).symm
          _ ≤ pyround x := pyround_mono h
      have hle : pyround x ≤ b := by
        calc pyround x ≤ pyround (b : α) := pyround_mono h2
          _ = b := pyround_intCast b
      rw [max_eq_right hge, min_eq_right hle]

/-- Python's `round(x, 1)`: round to one decimal digit, ties to even. -/
def round1 (x : α) : α := (pyround (x * 10) : α) / 10

/-- Python's `round(x, 2)`: round to two decimal digits, ties to even. -/
def round2 (x : α) : α := (pyround (x * 100) : α) / 100

/-- When `10 * x` is an integer, rounding to one decimal is the identity. -/
theorem round1_eq_self {x : α} {k : ℤ} (h : x * 10 = (k : α)) : round1 x = x := by
  rw [round1, h, pyround_intCast, ← h]
  field_simp

end Rounding

/-! ### Geo Cache (geo_cache_service.py)

The Redis handle is modelled as an `Option` over a pure key/value map;
`none` is the "store not configured / unreachable" case.  JSON
serialisation is modelled as the identity (json.dumps of any payload is
a non-empty string, so the truthiness test on the raw string in `get`
always passes when the key is present).  TTL expiry is wall-clock
behaviour and is not modelled: claims about cache round-trips assume the
read happens within the entry's TTL. -/

/-- A pure key/value map standing for the Redis database. -/
def Store (α : Type) : Type := String → Option α

/-- Overwrite a single key (Redis SETEX, ignoring the expiry clock). -/
def Store.update {α : Type} (st : Store α) (k : String) (v : α) : Store α :=
  fun key => if key = k then some v else st key

/-- Zero-pad a natural number below 1000 to three digits. -/
def pad3 (n : ℕ) : String :=
  if n < 10 then "00" ++ toString n else if n < 100 then "0" ++ toString n else toString n

/-- Render `k/1000` with exactly three decimal digits, as Python's
`f"{v:.3f}"` does for a float that is a multiple of 0.001. -/
def fmt3 (k : ℤ) : String :=
  (if k < 0 then "-" else "") ++ toString (k.natAbs / 1000) ++ "." ++ pad3 (k.natAbs % 1000)

/-- GeoCacheService._round_coord: `f"{round(val, 3):.3f}"` — round the
coordinate to 3 decimal places (banker's rounding) and render with
exactly three decimals. -/
def roundCoord (val : ℚ) : String := fmt3 (pyround (val * 1000))

/-- Python's `":".join(parts)`. -/
def joinColon : List String → String
  | [] => ""
  | [p] => p
  | p :: q :: rest => p ++ ":" ++ joinColon (q :: rest)

/-- GeoCacheService._build_key: `prefix+api : lat_3dp : lon_3dp [: extra]`. -/
def buildKey (pfx api : String) (lat lon : ℚ) (extra : String) : String :=
  let parts := [pfx ++ api, roundCoord lat, roundCoord lon]
  joinColon (if extra = "" then parts else parts ++ [extra])

/-- GeoCacheService.get: returns the cached value, or `none` when the
store handle is absent, the key is missing, or the read failed (the
source absorbs read errors into the `None` result). -/
def cacheGet {α : Type} (redis : Option (Store α)) (pfx api : String)
    (lat lon : ℚ) (extra : String) : Option α :=
  match redis with
  | none => none
  | some st => st (buildKey pfx api lat lon extra)

/-- GeoCacheService.set: best-effort write; a missing store handle is a
silent no-op (the source also swallows write errors). -/
def cacheSet {α : Type} (redis : Option (Store α)) (pfx api : String)
    (lat lon : ℚ) (data : α) (extra : String) : Option (Store α) :=
  match redis with
  | none => none
  | some st => some (st.update (buildKey pfx api lat lon extra) data)

/-! ### Geo Intelligence data model (schemas/geo.py) -/

/-- PlacePopularity: one nearby place as mapped from a provider record. -/
structure PlacePopularity where
  place_id : String
  name : String
  lat : ℚ
  lon : ℚ
  types : List String
  rating : Option ℚ
  user_ratings_total : Option ℕ
  price_level : Option ℕ
  vicinity : Option String
  business_status : Option String
deriving DecidableEq

/-- TrafficDensity: congestion sample derived from typical vs. live durations. -/
structure TrafficDensity where
  congestion_level : ℤ
  typical_duration_minutes : Option ℚ
  live_duration_minutes : Option ℚ
  traffic_ratio : Option ℚ
  description : String
deriving DecidableEq

/-- AreaActivityScore: the composite 0-100 activity score bundle. -/
structure AreaActivityScore where
  score : ℤ
  place_count : ℕ
  avg_rating : Option ℚ
  total_reviews : ℕ
  type_diversity : ℕ
  traffic_congestion : Option ℤ
  label : String
deriving DecidableEq

/-! ### Nearby places (geo_intelligence_service.py lines 58-122) -/

/-- Python truthiness fallback `o or d` for an optional string. -/
def pyOrStr (o : Option String) (d : String) : String :=
  match o with
  | some s => if s = "" then d else s
  | none => d

/-- Python truthiness fallback `o or d` for an optional integer. -/
def pyOrInt (o : Option ℤ) (d : ℤ) : ℤ :=
  match o with
  | some c => if c = 0 then d else c
  | none => d

/-- GeoIntelligenceService._is_available: `bool(self.api_key)` where
`self.api_key = settings.GOOGLE_MAPS_API_KEY or settings.GOOGLE_API_KEY`
(modelled as the already-resolved optional credential). -/
def isAvailable (apiKey : Option String) : Bool :=
  !(apiKey.getD "").isEmpty

/-- What the single provider HTTP call did: an exception anywhere in the
`try` block (transport error, timeout, malformed record), or a JSON
response with a status and the mapped result records.  Mapping provider
records into PlacePopularity values is the identity here. -/
inductive ProviderOutcome where
  | transportError
  | response (status : String) (results : List PlacePopularity)

/-- Result of one get_nearby_places call: the returned list, the store
after the call, and whether the provider / the cache were touched. -/
structure NearbyResult where
  places : List PlacePopularity
  redis : Option (Store (List PlacePopularity))
  networkAttempted : Bool
  cacheAccessed : Bool

/-- The non-cached tail of get_nearby_places (lines 85-122): call the
provider; on transport error or a status other than OK / ZERO_RESULTS
return an empty list without touching the cache; on success map the
records and write them back to the cache. -/
def fetchNearby (pfx : String) (redis : Option (Store (List PlacePopularity)))
    (provider : ProviderOutcome) (lat lon : ℚ) (cache_extra : String) : NearbyResult :=
  match provider with
  | ProviderOutcome.transportError => ⟨[], redis, true, true⟩
  | ProviderOutcome.response status results =>
    if status ≠ "OK" ∧ status ≠ "ZERO_RESULTS" then ⟨[], redis, true, true⟩
    else ⟨results, cacheSet redis pfx ("places") lat lon results cache_extra, true, true⟩

/-- GeoIntelligenceService.get_nearby_places (lines 58-122): missing
credential short-circuits to an empty list with no cache or network I/O;
a truthy (non-empty) cached list is returned as a hit; otherwise the
provider is consulted via fetchNearby. -/
def nearbyExtra (radius : ℤ) (place_type : Option String) : String :=
  toString radius ++ ":" ++ pyOrStr place_type ("all")

def getNearbyPlaces (apiKey : Option String) (pfx : String)
    (redis : Option (Store (List PlacePopularity))) (provider : ProviderOutcome)
    (lat lon : ℚ) (radius : ℤ) (place_type : Option String) : NearbyResult :=
  if isAvailable apiKey = false then ⟨[], redis, false, false⟩
  else
    match cacheGet redis pfx ("places") lat lon (nearbyExtra radius place_type) with
    | some (p :: rest) => ⟨p :: rest, redis, false, true⟩
    | some [] => fetchNearby pfx redis provider lat lon (nearbyExtra radius place_type)
    | none => fetchNearby pfx redis provider lat lon (nearbyExtra radius place_type)

/-! ### Traffic estimation (geo_intelligence_service.py lines 128-197) -/

/-- The band descriptions (lines 174-182).  The source scans a dict of
inclusive bands {(1,3),(4,5),(6,7),(8,10)} and takes the first match;
since the congestion level is clamped to [1,10] exactly one band
matches, so the if-chain below (whose final arm carries the (8,10)
description) is the same function on every reachable value. -/
def congestionDescription (congestion : ℤ) : String :=
  if 1 ≤ congestion ∧ congestion ≤ 3 then "Light traffic — roads are clear"
  else if 4 ≤ congestion ∧ congestion ≤ 5 then "Moderate traffic — some slowdowns"
  else if 6 ≤ congestion ∧ congestion ≤ 7 then "Heavy traffic — significant delays"
  else "Severe congestion — expect major delays"

/-- The pure computation inside get_traffic_density (lines 163-190):
from the provider's typical and live durations in seconds, derive the
ratio, the clamped congestion level, and the sample record.  The literal
3.3 is written 33/10. -/
def trafficFromDurations (typical_secs live_secs : ℕ) : TrafficDensity :=
  let typical_min : ℚ := (typical_secs : ℚ) / 60
  let live_min : ℚ := (live_secs : ℚ) / 60
  let ratio : ℚ := (live_secs : ℚ) / max (typical_secs : ℚ) 1
  let congestion : ℤ := min 10 (max 1 (pyround (ratio * (33 / 10))))
  { congestion_level := congestion
    typical_duration_minutes := some (round1 typical_min)
    live_duration_minutes := some (round1 live_min)
    traffic_ratio := some (round2 ratio)
    description := congestionDescription congestion }

/-! ### Composite Activity Score (geo_intelligence_service.py lines 203-281)

The cache consultation at the head of compute_activity_score and the
write-back at its end follow the same store model as get_nearby_places;
the claims target the score computation itself (lines 224-268), embedded
here as a pure function of the fetched places and traffic sample. -/

/-- The ratings of the places whose rating is not None (line 227). -/
def ratedRatings (places : List PlacePopularity) : List ℚ :=
  places.filterMap (fun p => p.rating)

/-- Average rating over rated places, 0 if there are none (line 228). -/
def avgRating (places : List PlacePopularity) : ℚ :=
  let l := ratedRatings places
  if l.length = 0 then 0 else l.sum / (l.length : ℚ)

/-- Total review count: `sum(p.user_ratings_total or 0)` (line 231). -/
def totalReviews (places : List PlacePopularity) : ℕ :=
  (places.map (fun p => p.user_ratings_total.getD 0)).sum

/-- Distinct category count: the size of the union of all type tags
(lines 234-237); a Python set's size is the number of distinct strings. -/
def typeDiversity (places : List PlacePopularity) : ℕ :=
  (places.flatMap (fun p => p.types)).dedup.length

/-- The score calculation of compute_activity_score (lines 241-258) as a
function of the snapshot values: place count, average rating, total
reviews, distinct categories, and the optional congestion level. -/
noncomputable def activityScoreValue (pc : ℕ) (avg : ℚ) (tr : ℕ) (td : ℕ)
    (cong : Option ℤ) : ℤ :=
  let density_score : ℝ := min 30 (((pc : ℝ) / 20) * 30)
  let rating_score : ℝ := if avg ≠ 0 then ((avg : ℝ) / 5) * 20 else 0
  let review_score : ℝ := min 20 ((Real.logb 10 (max (tr : ℝ) 1) / 3) * 20)
  let diversity_score : ℝ := min 15 (td : ℝ)
  let traffic_score : ℝ := ((pyOrInt cong 3 : ℝ) / 10) * 15
  let total := density_score + rating_score + review_score + diversity_score + traffic_score
  min 100 (max 0 (pyround total))

/-- The label thresholds of compute_activity_score (lines 261-268). -/
def activityLabel (score : ℤ) : String :=
  if 80 ≤ score then "Very High"
  else if 55 ≤ score then "High"
  else if 30 ≤ score then "Moderate"
  else "Low"

/-- compute_activity_score's result bundle (lines 220-281, cache layers
aside): derive the snapshot from the fetched places and traffic sample,
score it, and attach the label and raw counts. -/
noncomputable def computeActivityScore (places : List PlacePopularity)
    (traffic : Option TrafficDensity) : AreaActivityScore :=
  let place_count := places.length
  let avg := avgRating places
  let tr := totalReviews places
  let td := typeDiversity places
  let congestion : Option ℤ := traffic.map (fun t => t.congestion_level)
  let score := activityScoreValue place_count avg tr td congestion
  { score := score
    place_count := place_count
    avg_rating := if avg ≠ 0 then some (round2 avg) else none
    total_reviews := tr
    type_diversity := td
    traffic_congestion := congestion
    label := activityLabel score }

/-- The Activity Score composite formula exactly as claim C2 states it,
written from the claim text (to be compared with the source
computation): `min(30, placeCount/20*30) + (avgRating/5)*20 +
min(20, log10(max(totalReviews,1))/3*20) + min(15, distinctCategoryCount)
+ ((congestion or 3)/10)*15`, the sum rounded and clamped to [0,100]. -/
noncomputable def specActivityScore (placeCount : ℕ) (avgR : ℚ) (totalR : ℕ)
    (distinctCategoryCount : ℕ) (congestion : Option ℤ) : ℤ :=
  let total : ℝ :=
    min 30 (((placeCount : ℝ) / 20) * 30)
    + ((avgR : ℝ) / 5) * 20
    + min 20 ((Real.logb 10 (max (totalR : ℝ) 1) / 3) * 20)
    + min 15 (distinctCategoryCount : ℝ)
    + ((pyOrInt congestion 3 : ℝ) / 10) * 15
  min 100 (max 0 (pyround total))

/-! ### Demand Intelligence (demand_intelligence_service.py)

The five signal computations read the database and the geo service; each
such dependency is modelled by the value the service would have fetched,
with `Option`/`Bool` fields encoding the fallback paths the source takes
when data is missing or a dependency raises. -/

/-- One row of the SECTOR_PROFILES table (lines 43-104). -/
structure SectorProfile where
  name : String
  base_demand : ℚ
  urban_factor : ℚ
  rural_factor : ℚ
  growth_trend : ℚ
deriving DecidableEq

/-- SECTOR_PROFILES (lines 43-104), in the source's insertion order;
decimals are written as exact fractions over 100. -/
def SECTOR_PROFILES : List (String × SectorProfile) :=
  [("agriculture", ⟨"Agriculture", 72, 70/100, 130/100, 105/100⟩),
   ("manufacturing", ⟨"Manufacturing", 65, 110/100, 80/100, 108/100⟩),
   ("services", ⟨"Services", 78, 130/100, 60/100, 112/100⟩),
   ("technology", ⟨"Technology", 82, 140/100, 40/100, 118/100⟩),
   ("tourism", ⟨"Tourism", 60, 100/100, 100/100, 110/100⟩),
   ("energy", ⟨"Energy", 70, 90/100, 110/100, 115/100⟩),
   ("construction", ⟨"Construction", 74, 120/100, 90/100, 106/100⟩),
   ("commerce", ⟨"Commerce / Retail", 76, 130/100, 70/100, 109/100⟩),
   ("health", ⟨"Health", 80, 110/100, 90/100, 107/100⟩),
   ("education", ⟨"Education", 68, 100/100, 100/100, 104/100⟩),
   ("transport", ⟨"Transport & Logistics", 71, 120/100, 80/100, 111/100⟩),
   ("housing", ⟨"Housing / Real Estate", 73, 130/100, 70/100, 106/100⟩)]

/-- `SECTOR_PROFILES.get(sector, {}).get("growth_trend", 1.0)`. -/
def growthOf (s : String) : ℚ :=
  match SECTOR_PROFILES.lookup s with
  | some p => p.growth_trend
  | none => 1

/-- `SECTOR_PROFILES.get(sector, {}).get("base_demand", 60)`. -/
def baseDemandOf (s : String) : ℚ :=
  match SECTOR_PROFILES.lookup s with
  | some p => p.base_demand
  | none => 60

/-- `SECTOR_PROFILES.get(sector, {}).get("urban_factor", 1.0)`. -/
def urbanFactorOf (s : String) : ℚ :=
  match SECTOR_PROFILES.lookup s with
  | some p => p.urban_factor
  | none => 1

/-- `SECTOR_PROFILES.get(sector, {}).get("rural_factor", 1.0)`. -/
def ruralFactorOf (s : String) : ℚ :=
  match SECTOR_PROFILES.lookup s with
  | some p => p.rural_factor
  | none => 1

/-- The WILAYAS display-name table (lines 35-40). -/
def WILAYAS : List (String × String) :=
  [("01", "Algiers"), ("02", "Oran"), ("03", "Constantine"), ("04", "Setif"),
   ("05", "Batna"), ("06", "Annaba"), ("07", "Skikda"), ("08", "Tlemcen"),
   ("09", "Tizi Ouzou"), ("10", "Béjaïa"), ("11", "Biskra"), ("12", "Tebessa"),
   ("13", "Boumerdès"), ("14", "Ouargla"), ("15", "Blida"), ("16", "Djelfa")]

/-- Python's `f"{n:,}"`: decimal digits grouped in threes by commas. -/
def commaSep (n : ℕ) : String :=
  if _h : n < 1000 then toString n
  else commaSep (n / 1000) ++ "," ++ pad3 (n % 1000)
termination_by n
decreasing_by exact Nat.div_lt_self (by omega) (by omega)

/-- DemandSignal (schemas/demand.py): one weighted component of the
composite demand score. -/
structure DemandSignal where
  name : String
  score : ℝ
  weight : ℝ
  weighted_score : ℝ
  detail : String

/-- The wilaya record fields _demographics_signal reads: a truthy
population and the optional region tag. -/
structure WilayaDemo where
  population : ℕ
  region : Option String
deriving DecidableEq

/-- _pricing_signal (lines 129-175).  `dataPoints` is the count the
time-series query returns for the sector; `dbError` is the `except`
path (any database exception), which yields the flat 50-point signal. -/
noncomputable def pricingSignal (sector : String) (dataPoints : ℕ)
    (dbError : Bool) : DemandSignal :=
  if dbError then
    { name := "Pricing Trends", score := 50, weight := 0.25,
      weighted_score := 12.5, detail := "Insufficient data" }
  else
    let confidence : ℝ := min 1 ((dataPoints : ℝ) / 50)
    let score : ℝ :=
      if 0 < dataPoints then 50 + confidence * 30
      else min 100 ((((growthOf sector : ℚ) : ℝ) - 1) * 500 + 40)
    { name := "Pricing Trends"
      score := round1 (min 100 (max 0 score))
      weight := 0.25
      weighted_score := round1 (min 100 (max 0 score) * 0.25)
      detail := if 0 < dataPoints then toString dataPoints ++ " data points analyzed"
                else "Based on sector growth profile" }

/-- _competition_signal (lines 177-227).  `competPlaces = some places`
is the path where the geo service exists, the wilaya resolves with
truthy coordinates and the nearby-places call succeeds; every other
path (no geo service, no wilaya code, unresolved wilaya, exception)
is `none` and takes the sector-profile fallback. -/
noncomputable def competitionSignal (sector : String)
    (competPlaces : Option (List PlacePopularity)) : DemandSignal :=
  match competPlaces with
  | some places =>
    let count := places.length
    let score : ℝ :=
      if count = 0 then 30
      else if count ≤ 5 then 50 + (count : ℝ) * 6
      else if count ≤ 15 then 80
      else max 40 (90 - ((count : ℝ) - 15) * 3)
    { name := "Competition Density"
      score := round1 score
      weight := 0.20
      weighted_score := round1 (score * 0.20)
      detail := toString count ++ " competitors in 2km radius" }
  | none =>
    let base : ℝ := ((baseDemandOf sector : ℚ) : ℝ)
    { name := "Competition Density"
      score := round1 (base * 0.85)
      weight := 0.20
      weighted_score := round1 (base * 0.85 * 0.20)
      detail := "Based on sector averages (no geo data)" }

/-- _demographics_signal (lines 229-262).  `demo = some d` is the path
where a wilaya code was given and the record resolves with a truthy
population; otherwise the flat 55-point national fallback applies. -/
noncomputable def demographicsSignal (sector : String)
    (demo : Option WilayaDemo) : DemandSignal :=
  match demo with
  | some d =>
    let pop_score : ℝ := min 95 (30 + Real.logb 10 (max (d.population : ℝ) 1000) * 12)
    let is_urban : Bool :=
      match d.region with
      | none => true
      | some r => if r = "" then true else decide (r = "North" ∨ r = "Central")
    let location_factor : ℝ :=
      if is_urban then ((urbanFactorOf sector : ℚ) : ℝ)
      else ((ruralFactorOf sector : ℚ) : ℝ)
    let score := pop_score * location_factor
    { name := "Demographics"
      score := round1 (min 100 (max 0 score))
      weight := 0.20
      weighted_score := round1 (min 100 (max 0 score) * 0.20)
      detail := "Population: " ++ commaSep d.population ++ " (" ++
        (match d.region with | none => "N/A" | some r => if r = "" then "N/A" else r)
        ++ " region)" }
  | none =>
    { name := "Demographics", score := 55, weight := 0.20,
      weighted_score := 11.0, detail := "National average (no wilaya specified)" }

/-- _activity_signal (lines 264-290).  `activity = some a` is the path
where the geo service exists, the wilaya resolves with truthy
coordinates and compute_activity_score succeeds. -/
noncomputable def activitySignal (activity : Option AreaActivityScore) : DemandSignal :=
  match activity with
  | some a =>
    { name := "Area Activity"
      score := (a.score : ℝ)
      weight := 0.20
      weighted_score := round1 ((a.score : ℝ) * 0.20)
      detail := "Activity: " ++ a.label ++ " (" ++ toString a.place_count ++ " places)" }
  | none =>
    { name := "Area Activity", score := 50, weight := 0.20,
      weighted_score := 10.0, detail := "No geo data available" }

/-- _economic_signal (lines 292-322).  `macroCount` is the count of
macro-tagged time-series rows; `dbError` is the `except` path, which
scores a flat 50 (and reports the growth-trend detail, since the
local `macro_count` is then unbound and the `dir()` probe yields 0). -/
noncomputable def economicSignal (sector : String) (macroCount : ℕ)
    (dbError : Bool) : DemandSignal :=
  let score : ℝ :=
    if dbError then 50
    else if 0 < macroCount then 65
    else 30 + (((growthOf sector : ℚ) : ℝ) - 1) * 300
  { name := "Economic Indicators"
    score := round1 (min 100 (max 0 score))
    weight := 0.15
    weighted_score := round1 (min 100 (max 0 score) * 0.15)
    detail := "Based on " ++
      (if dbError = false ∧ 0 < macroCount then "macro data" else "sector growth trend") }

/-- The database / geo environment one compute_demand_score call sees.
The pricing data-point count and the competition place list depend on
the sector (the time-series query filters by sector id and the place
type map keys on the sector slug), so they are sector-indexed. -/
structure DemandEnv where
  dataPoints : String → ℕ
  pricingDbError : String → Bool
  competPlaces : String → Option (List PlacePopularity)
  demo : Option WilayaDemo
  activity : Option AreaActivityScore
  macroCount : ℕ
  econDbError : Bool

/-- _gather_signals (lines 358-369): the five signals in computation order. -/
noncomputable def gatherSignals (env : DemandEnv) (sector : String) : List DemandSignal :=
  [pricingSignal sector (env.dataPoints sector) (env.pricingDbError sector),
   competitionSignal sector (env.competPlaces sector),
   demographicsSignal sector env.demo,
   activitySignal env.activity,
   economicSignal sector env.macroCount env.econDbError]

/-- DemandScore (schemas/demand.py). -/
structure DemandScore where
  sector : String
  wilaya_code : Option String
  wilaya_name : Option String
  score : ℤ
  label : String
  recommendation : String
  signals : List DemandSignal

/-- `WILAYAS.get(wilaya_code, wilaya_code) if wilaya_code else None`
(line 346); an empty code string is falsy. -/
def wilayaNameOf (code : Option String) : Option String :=
  match code with
  | none => none
  | some c => if c = "" then none else some ((WILAYAS.lookup c).getD c)

/-- compute_demand_score (lines 328-356): sum the five weighted scores,
round, clamp to [0,100], and attach the threshold label and
recommendation. -/
noncomputable def computeDemandScore (env : DemandEnv) (sector : String)
    (wilaya_code : Option String) : DemandScore :=
  let signals := gatherSignals env sector
  let total : ℝ := (signals.map (fun s => s.weighted_score)).sum
  let score : ℤ := min 100 (max 0 (pyround total))
  let label : String :=
    if 80 ≤ score then "Very High"
    else if 60 ≤ score then "High"
    else if 40 ≤ score then "Moderate"
    else "Low"
  let recommendation : String :=
    if 80 ≤ score then "Strong demand for " ++ sector ++ " — excellent opportunity"
    else if 60 ≤ score then "Good demand for " ++ sector ++ " — favorable conditions"
    else if 40 ≤ score then "Average demand for " ++ sector ++ " — viable with differentiation"
    else "Weak demand for " ++ sector ++ " — consider alternatives"
  { sector := sector, wilaya_code := wilaya_code,
    wilaya_name := wilayaNameOf wilaya_code,
    score := score, label := label, recommendation := recommendation,
    signals := signals }

/-- The verdict logic of get_feasibility_report (lines 439-447), a pure
function of the demand score and the optional activity score.
`activityOk` is `activity_score is None or activity_score >= 40`. -/
def activityOk (a? : Option ℤ) : Bool :=
  match a? with
  | none => true
  | some a => decide (40 ≤ a)

/-- Verdict thresholds (lines 439-447). -/
def feasibilityVerdict (demandScore : ℤ) (activityScore : Option ℤ) : String :=
  if 75 ≤ demandScore ∧ activityOk activityScore = true then "Highly Favorable"
  else if 55 ≤ demandScore then "Feasible"
  else if 35 ≤ demandScore then "Risky"
  else "Not Recommended"

/-- SectorOpportunity (schemas/demand.py). -/
structure SectorOpportunity where
  rank : ℕ
  sector : String
  sector_name : String
  score : ℤ
  label : String
  key_signals : List String

/-- The comparison `sorted(ds.signals, key=lambda x: -x.weighted_score)`
uses: descending weighted score.  Python's sort is stable; it is
modelled by the stable `List.mergeSort`. -/
noncomputable def signalLe (a b : DemandSignal) : Bool :=
  decide (b.weighted_score ≤ a.weighted_score)

/-- The key-signal list of one opportunity (line 389-391): details of
the top-3 signals by weighted contribution. -/
noncomputable def keySignals (ds : DemandScore) : List String :=
  ((ds.signals.mergeSort signalLe).take 3).map (fun s => s.detail)

/-- One entry of the loop body in get_sector_opportunities (lines
380-393), with the placeholder rank 0. -/
noncomputable def sectorOpportunityOf (env : DemandEnv) (code : Option String)
    (slug : String) (p : SectorProfile) : SectorOpportunity :=
  let ds := computeDemandScore env slug code
  { rank := 0, sector := slug, sector_name := p.name,
    score := ds.score, label := ds.label, key_signals := keySignals ds }

/-- The unranked result list, in profile-table iteration order. -/
noncomputable def oppBase (env : DemandEnv) (code : Option String) : List SectorOpportunity :=
  SECTOR_PROFILES.map (fun sp => sectorOpportunityOf env code sp.1 sp.2)

/-- The comparison `results.sort(key=lambda x: -x.score)` uses:
descending score; Python's stable sort is modelled by `mergeSort`. -/
def oppLe (a b : SectorOpportunity) : Bool :=
  decide (b.score ≤ a.score)

/-- The sorted result list (line 395). -/
noncomputable def oppSorted (env : DemandEnv) (code : Option String) : List SectorOpportunity :=
  (oppBase env code).mergeSort oppLe

/-- Ranks 1..N assigned in sorted order (lines 396-397). -/
noncomputable def oppRanked (env : DemandEnv) (code : Option String) : List SectorOpportunity :=
  (oppSorted env code).enum.map (fun ie => { ie.2 with rank := ie.1 + 1 })

/-- get_sector_opportunities (lines 375-399): rank all sectors, truncate
to `limit`. -/
noncomputable def getSectorOpportunities (env : DemandEnv) (code : Option String)
    (limit : ℕ) : List SectorOpportunity :=
  (oppRanked env code).take limit

/-! ### Shared lemmas for the score claims -/

/-- Monotonicity of round-then-clamp in the summed total. -/
theorem clamp_round_mono {t1 t2 : ℝ} (h : t1 ≤ t2) :
    min 100 (max 0 (pyround t1)) ≤ min 100 (max 0 (pyround t2)) :=
  min_le_min (le_refl _) (max_le_max (le_refl _) (pyround_mono h))

/-- The truthiness-guarded rating term equals the plain linear term:
`(avg/5)*20 if avg else 0` is `4*avg` in both branches. -/
theorem rating_term_eq (avg : ℚ) :
    (if avg ≠ 0 then ((avg : ℝ) / 5) * 20 else 0) = (avg : ℝ) * 4 := by
  by_cases h : avg = 0
  · simp [h]
  · rw [if_pos h]; ring

/-- A successful association-list lookup returns one of the stored values. -/
theorem lookup_mem {β : Type} {l : List (String × β)} {a : String} {b : β}
    (h : l.lookup a = some b) : b ∈ l.map Prod.snd := by
  induction l with
  | nil => simp [List.lookup] at h
  | cons hd tl ih =>
    simp only [List.lookup] at h
    cases hab : (a == hd.1) with
    | true =>
      rw [hab] at h
      simp only [Option.some.injEq] at h
      simp only [List.map_cons]
      exact h ▸ List.mem_cons_self _ _
    | false =>
      rw [hab] at h
      simp only [List.map_cons]
      exact List.mem_cons_of_mem _ (ih h)

/-- Every growth trend in the sector-profile table (and the 1.0 default)
is an integer number of hundredths. -/
theorem growthOf_mul_100_int (s : String) : ∃ m : ℤ, growthOf s * 100 = (m : ℚ) := by
  unfold growthOf
  rcases h : SECTOR_PROFILES.lookup s with _ | p
  · exact ⟨100, by norm_num⟩
  · have hp : p ∈ SECTOR_PROFILES.map Prod.snd := lookup_mem h
    simp only [SECTOR_PROFILES, List.map_cons, List.map_nil, List.mem_cons,
      List.not_mem_nil, or_false] at hp
    rcases hp with rfl | rfl | rfl | rfl | rfl | rfl | rfl | rfl | rfl | rfl | rfl | rfl
    · exact ⟨105, by norm_num⟩
    · exact ⟨108, by norm_num⟩
    · exact ⟨112, by norm_num⟩
    · exact ⟨118, by norm_num⟩
    · exact ⟨110, by norm_num⟩
    · exact ⟨115, by norm_num⟩
    · exact ⟨106, by norm_num⟩
    · exact ⟨109, by norm_num⟩
    · exact ⟨107, by norm_num⟩
    · exact ⟨104, by norm_num⟩
    · exact ⟨111, by norm_num⟩
    · exact ⟨106, by norm_num⟩

/-- The confidence term times 300 is the natural number `6 * min n 50`. -/
theorem min_confidence_mul (n : ℕ) :
    min (1 : ℝ) ((n : ℝ) / 50) * 300 = ((6 * min n 50 : ℕ) : ℝ) := by
  rcases le_total n 50 with h | h
  · have h' : ((n : ℝ) / 50) ≤ 1 := by
      rw [div_le_one (by norm_num)]
      exact_mod_cast h
    rw [min_eq_right h', min_eq_left h]
    push_cast
    ring
  · have h50 : (50 : ℝ) ≤ (n : ℝ) := by exact_mod_cast h
    have h' : (1 : ℝ) ≤ ((n : ℝ) / 50) := by
      rw [le_div_iff₀ (by norm_num)]
      linarith
    rw [min_eq_left h', min_eq_right h]
    norm_num

/-! ### Claims -/

/-- C2: compute_activity_score returns the composite
`min(30, pc/20*30) + (avg/5)*20 + min(20, log10(max(reviews,1))/3*20) +
min(15, categories) + ((congestion or 3)/10)*15` over the derived
snapshot, rounded and clamped to [0,100], with the label determined by
the inclusive thresholds 80 / 55 / 30. -/
theorem activity_score_formula (places : List PlacePopularity)
    (traffic : Option TrafficDensity) :
    (computeActivityScore places traffic).score =
      specActivityScore places.length (avgRating places) (totalReviews places)
        (typeDiversity places) (traffic.map (fun t => t.congestion_level))
    ∧ (computeActivityScore places traffic).label =
      (if 80 ≤ (computeActivityScore places traffic).score then "Very High"
       else if 55 ≤ (computeActivityScore places traffic).score then "High"
       else if 30 ≤ (computeActivityScore places traffic).score then "Moderate"
       else "Low") := by
  constructor
  · show activityScoreValue places.length (avgRating places) (totalReviews places)
        (typeDiversity places) (traffic.map (fun t => t.congestion_level)) = _
    simp only [activityScoreValue, specActivityScore, rating_term_eq]
    have hr : ((avgRating places : ℝ) / 5) * 20 = (avgRating places : ℝ) * 4 := by ring
    rw [hr]
  · rfl

/-- C3: holding the other inputs fixed, the activity score is
monotonically non-decreasing in place count, average rating, total
reviews, and distinct category count, and it lies in [0,100] for all
inputs (including zero places). -/
theorem activity_score_monotone_bounded (pc pc' : ℕ) (avg avg' : ℚ)
    (tr tr' td td' : ℕ) (cong : Option ℤ) :
    (pc ≤ pc' → activityScoreValue pc avg tr td cong ≤ activityScoreValue pc' avg tr td cong)
    ∧ (avg ≤ avg' → activityScoreValue pc avg tr td cong ≤ activityScoreValue pc avg' tr td cong)
    ∧ (tr ≤ tr' → activityScoreValue pc avg tr td cong ≤ activityScoreValue pc avg tr' td cong)
    ∧ (td ≤ td' → activityScoreValue pc avg tr td cong ≤ activityScoreValue pc avg tr td' cong)
    ∧ 0 ≤ activityScoreValue pc avg tr td cong
    ∧ activityScoreValue pc avg tr td cong ≤ 100 := by
  refine ⟨fun h => ?_, fun h => ?_, fun h => ?_, fun h => ?_, ?_, ?_⟩
  · simp only [activityScoreValue]
    apply clamp_round_mono
    have hc : ((pc : ℝ)) ≤ (pc' : ℝ) := by exact_mod_cast h
    gcongr
  · simp only [activityScoreValue, rating_term_eq]
    apply clamp_round_mono
    have hc : ((avg : ℝ)) ≤ (avg' : ℝ) := by exact_mod_cast h
    gcongr
  · simp only [activityScoreValue]
    apply clamp_round_mono
    have hlog : Real.logb 10 (max (tr : ℝ) 1) ≤ Real.logb 10 (max (tr' : ℝ) 1) := by
      apply Real.logb_le_logb_of_le (by norm_num)
      · exact lt_of_lt_of_le zero_lt_one (le_max_right _ _)
      · exact max_le_max (by exact_mod_cast h) (le_refl _)
    gcongr
  · simp only [activityScoreValue]
    apply clamp_round_mono
    have hc : ((td : ℝ)) ≤ (td' : ℝ) := by exact_mod_cast h
    gcongr
  · simp only [activityScoreValue]
    exact le_min (by norm_num) (le_max_left _ _)
  · simp only [activityScoreValue]
    exact min_le_left _ _

/-- Witness for C3 at concrete inputs: monotone steps in each of the
four inputs, obtained by applying the theorem. -/
theorem activity_score_monotone_bounded_witness :
    (3 : ℕ) ≤ 5 ∧ (2 : ℚ) ≤ 3 ∧ (10 : ℕ) ≤ 20 ∧ (4 : ℕ) ≤ 6
    ∧ activityScoreValue 3 2 10 4 (some 3) ≤ activityScoreValue 5 2 10 4 (some 3)
    ∧ activityScoreValue 3 2 10 4 (some 3) ≤ activityScoreValue 3 3 10 4 (some 3)
    ∧ activityScoreValue 3 2 10 4 (some 3) ≤ activityScoreValue 3 2 20 4 (some 3)
    ∧ activityScoreValue 3 2 10 4 (some 3) ≤ activityScoreValue 3 2 10 6 (some 3) := by
  refine ⟨by norm_num, by norm_num, by norm_num, by norm_num, ?_, ?_, ?_, ?_⟩
  · exact (activity_score_monotone_bounded 3 5 2 2 10 10 4 4 (some 3)).1 (by norm_num)
  · exact (activity_score_monotone_bounded 3 3 2 3 10 10 4 4 (some 3)).2.1 (by norm_num)
  · exact (activity_score_monotone_bounded 3 3 2 2 10 20 4 4 (some 3)).2.2.1 (by norm_num)
  · exact (activity_score_monotone_bounded 3 3 2 2 10 10 4 6 (some 3)).2.2.2.1 (by norm_num)

/-- C4: coordinate pairs whose latitudes and longitudes each round to the
same 3-decimal value build the identical cache key, and consequently a
`set` at one point of a 0.001-degree grid cell followed by a `get` at any
other point of the cell (same namespace and qualifier, store available,
within TTL) returns the stored value. -/
theorem geo_cache_grid_cell_round_trip {α : Type} (pfx api extra : String)
    (lat1 lon1 lat2 lon2 : ℚ) (st : Store α) (v : α)
    (hlat : pyround (lat1 * 1000) = pyround (lat2 * 1000))
    (hlon : pyround (lon1 * 1000) = pyround (lon2 * 1000)) :
    buildKey pfx api lat1 lon1 extra = buildKey pfx api lat2 lon2 extra
    ∧ cacheGet (cacheSet (some st) pfx api lat1 lon1 v extra) pfx api lat2 lon2 extra
        = some v := by
  have hk : buildKey pfx api lat1 lon1 extra = buildKey pfx api lat2 lon2 extra := by
    unfold buildKey roundCoord
    rw [hlat, hlon]
  refine ⟨hk, ?_⟩
  show Store.update st (buildKey pfx api lat1 lon1 extra) v (buildKey pfx api lat2 lon2 extra)
      = some v
  rw [← hk]
  unfold Store.update
  rw [if_pos rfl]

/-- Witness for C4 at concrete inputs: 36.7501 and 36.7504 round to the
same 3-decimal latitude, 3.0399 and 3.0401 to the same longitude, and the
round trip through a store returns the stored value. -/
theorem geo_cache_grid_cell_round_trip_witness :
    pyround ((367501 / 10000 : ℚ) * 1000) = pyround ((367504 / 10000 : ℚ) * 1000)
    ∧ pyround ((30399 / 10000 : ℚ) * 1000) = pyround ((30401 / 10000 : ℚ) * 1000)
    ∧ cacheGet
        (cacheSet (some (fun _ => none : Store ℕ)) ("geo:") ("places")
          (367501 / 10000) (30399 / 10000) 7 ("2000:all"))
        ("geo:") ("places") (367504 / 10000) (30401 / 10000) ("2000:all") = some 7 := by
  have h1 : pyround ((367501 / 10000 : ℚ) * 1000) = pyround ((367504 / 10000 : ℚ) * 1000) := by
    norm_num [pyround, Int.fract, round_eq]
  have h2 : pyround ((30399 / 10000 : ℚ) * 1000) = pyround ((30401 / 10000 : ℚ) * 1000) := by
    norm_num [pyround, Int.fract, round_eq]
  exact ⟨h1, h2,
    (geo_cache_grid_cell_round_trip ("geo:") ("places") ("2000:all")
      (367501 / 10000) (30399 / 10000) (367504 / 10000) (30401 / 10000)
      (fun _ => none) 7 h1 h2).2⟩

/-- C5: the congestion level equals `round(clamp(ratio * 3.3, 1, 10))`
with `ratio = live_seconds / max(typical_seconds, 1)`; ratio 1.0 yields
level 3, ratio 3.0 yields level 10 and ratio 0.3 yields level 1. -/
theorem congestion_level_spec :
    (∀ typical_secs live_secs : ℕ,
      (trafficFromDurations typical_secs live_secs).congestion_level =
        pyround (min (10 : ℚ) (max 1
          (((live_secs : ℚ) / max (typical_secs : ℚ) 1) * (33 / 10)))))
    ∧ (trafficFromDurations 600 600).congestion_level = 3
    ∧ (trafficFromDurations 600 1800).congestion_level = 10
    ∧ (trafficFromDurations 1000 300).congestion_level = 1 := by
  have hmain : ∀ typical_secs live_secs : ℕ,
      (trafficFromDurations typical_secs live_secs).congestion_level =
        pyround (min (10 : ℚ) (max 1
          (((live_secs : ℚ) / max (typical_secs : ℚ) 1) * (33 / 10)))) := by
    intro t l
    show min 10 (max 1 (pyround (((l : ℚ) / max (t : ℚ) 1) * (33 / 10)))) = _
    have h := pyround_clamp (α := ℚ) 1 10 (by norm_num)
      (((l : ℚ) / max (t : ℚ) 1) * (33 / 10))
    simpa using h
  refine ⟨hmain, ?_, ?_, ?_⟩
  · rw [hmain 600 600]
    norm_num [pyround, Int.fract, round_eq, min_def, max_def]
  · rw [hmain 600 1800]
    norm_num [pyround, Int.fract, round_eq, min_def, max_def]
  · rw [hmain 1000 300]
    norm_num [pyround, Int.fract, round_eq, min_def, max_def]

/-- C6: the feasibility verdict is a pure function of the demand score
and the optional activity score, with all four boundaries (35, 55, 75
and the 40 activity cutoff) inclusive: "Highly Favorable" iff
demand ≥ 75 and activity unknown or ≥ 40; otherwise "Feasible" iff
demand ≥ 55; otherwise "Risky" iff demand ≥ 35; otherwise
"Not Recommended". -/
theorem feasibility_verdict_thresholds (d : ℤ) (a? : Option ℤ) :
    (feasibilityVerdict d a? = "Highly Favorable" ↔
      75 ≤ d ∧ ∀ a, a? = some a → 40 ≤ a)
    ∧ (feasibilityVerdict d a? = "Feasible" ↔
      55 ≤ d ∧ ¬(75 ≤ d ∧ ∀ a, a? = some a → 40 ≤ a))
    ∧ (feasibilityVerdict d a? = "Risky" ↔ 35 ≤ d ∧ d < 55)
    ∧ (feasibilityVerdict d a? = "Not Recommended" ↔ d < 35) := by
  have hok : (activityOk a? = true) ↔ (∀ a, a? = some a → 40 ≤ a) := by
    cases a? <;> simp [activityOk]
  have hne1 : ("Highly Favorable" : String) ≠ "Feasible" := by decide
  have hne2 : ("Highly Favorable" : String) ≠ "Risky" := by decide
  have hne3 : ("Highly Favorable" : String) ≠ "Not Recommended" := by decide
  have hne4 : ("Feasible" : String) ≠ "Risky" := by decide
  have hne5 : ("Feasible" : String) ≠ "Not Recommended" := by decide
  have hne6 : ("Risky" : String) ≠ "Not Recommended" := by decide
  unfold feasibilityVerdict
  split_ifs with h1 h2 h3
  · have hd := h1.1
    have hcond : 75 ≤ d ∧ ∀ a, a? = some a → 40 ≤ a := ⟨h1.1, hok.mp h1.2⟩
    refine ⟨?_, ?_, ?_, ?_⟩
    · simp only [eq_self_iff_true, true_iff]; exact hcond
    · simp only [hne1, false_iff]
      intro hc
      exact hc.2 hcond
    · simp only [hne2, false_iff]
      omega
    · simp only [hne3, false_iff]
      omega
  · have hcond : ¬(75 ≤ d ∧ ∀ a, a? = some a → 40 ≤ a) := by
      intro hc
      exact h1 ⟨hc.1, hok.mpr hc.2⟩
    refine ⟨?_, ?_, ?_, ?_⟩
    · simp only [Ne.symm hne1, false_iff]
      intro hc
      exact hcond hc
    · simp only [eq_self_iff_true, true_iff]
      exact ⟨h2, hcond⟩
    · simp only [hne4, false_iff]
      omega
    · simp only [hne5, false_iff]
      omega
  · refine ⟨?_, ?_, ?_, ?_⟩
    · simp only [Ne.symm hne2, false_iff]
      intro hc
      have hd := hc.1
      omega
    · simp only [Ne.symm hne4, false_iff]
      intro hc
      exact h2 hc.1
    · simp only [eq_self_iff_true, true_iff]
      exact ⟨h3, by omega⟩
    · simp only [hne6, false_iff]
      omega
  · refine ⟨?_, ?_, ?_, ?_⟩
    · simp only [Ne.symm hne3, false_iff]
      intro hc
      have hd := hc.1
      omega
    · simp only [Ne.symm hne5, false_iff]
      intro hc
      have hd := hc.1
      omega
    · simp only [Ne.symm hne6, false_iff]
      intro hc
      have hd := hc.1
      omega
    · simp only [eq_self_iff_true, true_iff]
      omega

/-- C8: with at least one historical time-series point the Pricing Trend
signal scores `50 + min(1, pointCount/50)*30` (hence lies in [50,80]);
with none it scores `clamp(0,100, (growth-1)*500+40)` from the sector's
static growth-trend profile; in both cases the weight is 0.25. -/
theorem pricing_signal_spec (sector : String) (n : ℕ) :
    ((pricingSignal sector n false).score =
      if 0 < n then 50 + min 1 ((n : ℝ) / 50) * 30
      else min 100 (max 0 ((((growthOf sector : ℚ) : ℝ) - 1) * 500 + 40)))
    ∧ (pricingSignal sector n false).weight = 0.25
    ∧ (0 < n → 50 ≤ (pricingSignal sector n false).score
        ∧ (pricingSignal sector n false).score ≤ 80) := by
  by_cases hn : 0 < n
  · have hminle : min (1 : ℝ) ((n : ℝ) / 50) ≤ 1 := min_le_left _ _
    have hmin0 : 0 ≤ min (1 : ℝ) ((n : ℝ) / 50) := le_min (by norm_num) (by positivity)
    have hscore : (pricingSignal sector n false).score
        = 50 + min 1 ((n : ℝ) / 50) * 30 := by
      show round1 (min 100 (max 0 (if 0 < n then 50 + min 1 ((n : ℝ) / 50) * 30
        else min 100 ((((growthOf sector : ℚ) : ℝ) - 1) * 500 + 40)))) = _
      rw [if_pos hn, max_eq_right (by linarith), min_eq_right (by linarith)]
      have hmm := min_confidence_mul n
      have h10 : (50 + min (1 : ℝ) ((n : ℝ) / 50) * 30) * 10
          = (((500 + 6 * min n 50 : ℕ) : ℤ) : ℝ) := by
        push_cast
        push_cast at hmm
        linarith [hmm]
      exact round1_eq_self h10
    refine ⟨?_, rfl, ?_⟩
    · rw [hscore, if_pos hn]
    · intro _
      rw [hscore]
      constructor <;> linarith
  · obtain ⟨m, hm⟩ := growthOf_mul_100_int sector
    have hgm : ((growthOf sector : ℚ) : ℝ) * 100 = (m : ℝ) := by exact_mod_cast hm
    have hscore : (pricingSignal sector n false).score
        = min 100 (max 0 ((((growthOf sector : ℚ) : ℝ) - 1) * 500 + 40)) := by
      show round1 (min 100 (max 0 (if 0 < n then 50 + min 1 ((n : ℝ) / 50) * 30
        else min 100 ((((growthOf sector : ℚ) : ℝ) - 1) * 500 + 40)))) = _
      rw [if_neg hn]
      have hswap : max (0 : ℝ)
          (min 100 ((((growthOf sector : ℚ) : ℝ) - 1) * 500 + 40))
          = min 100 (max 0 ((((growthOf sector : ℚ) : ℝ) - 1) * 500 + 40)) := by
        rw [max_min_distrib_left]
        norm_num
      rw [hswap, ← min_assoc, min_self]
      have ht : ((((growthOf sector : ℚ) : ℝ) - 1) * 500 + 40) * 10
          = ((50 * m - 4600 : ℤ) : ℝ) := by
        push_cast
        linear_combination 50 * hgm
      have h10 : (min (100 : ℝ)
            (max 0 ((((growthOf sector : ℚ) : ℝ) - 1) * 500 + 40))) * 10
          = ((min 1000 (max 0 (50 * m - 4600)) : ℤ) : ℝ) := by
        rw [min_mul_of_nonneg _ _ (by norm_num : (0 : ℝ) ≤ 10),
          max_mul_of_nonneg _ _ (by norm_num : (0 : ℝ) ≤ 10), ht]
        push_cast
        norm_num
      exact round1_eq_self h10
    refine ⟨?_, rfl, ?_⟩
    · rw [hscore, if_neg hn]
    · intro hcon
      exact absurd hcon hn

/-- Witness for C8: the [50,80] range conjunct applied at sector
"services" with 10 data points. -/
theorem pricing_signal_spec_witness :
    0 < 10 ∧ 50 ≤ (pricingSignal ("services") 10 false).score
    ∧ (pricingSignal ("services") 10 false).score ≤ 80 := by
  have h := (pricing_signal_spec ("services") 10).2.2 (by norm_num)
  exact ⟨by norm_num, h.1, h.2⟩

/-- Every path through the provider-consulting tail contacts the network. -/
theorem fetchNearby_network (pfx : String) (redis : Option (Store (List PlacePopularity)))
    (provider : ProviderOutcome) (lat lon : ℚ) (extra : String) :
    (fetchNearby pfx redis provider lat lon extra).networkAttempted = true := by
  rcases provider with _ | ⟨s, r⟩
  · rfl
  · by_cases hc : s ≠ "OK" ∧ s ≠ "ZERO_RESULTS"
    · simp [fetchNearby, hc]
    · simp [fetchNearby, hc]

/-- C9: get_nearby_places never raises — every path returns a value.
With no provider credential it returns an empty list having attempted
neither network nor cache I/O; when the call reaches the provider
(cache miss or cached empty list), a transport error or any status
other than OK / ZERO_RESULTS yields an empty list and leaves the
store untouched. -/
theorem get_nearby_places_failure_modes
    (apiKey : Option String) (pfx : String)
    (redis : Option (Store (List PlacePopularity))) (provider : ProviderOutcome)
    (lat lon : ℚ) (radius : ℤ) (pt : Option String)
    (hmiss : cacheGet redis pfx ("places") lat lon (nearbyExtra radius pt) = none
      ∨ cacheGet redis pfx ("places") lat lon (nearbyExtra radius pt) = some []) :
    (isAvailable apiKey = false →
      getNearbyPlaces apiKey pfx redis provider lat lon radius pt
        = ⟨[], redis, false, false⟩)
    ∧ (provider = ProviderOutcome.transportError →
      (getNearbyPlaces apiKey pfx redis provider lat lon radius pt).places = []
      ∧ (getNearbyPlaces apiKey pfx redis provider lat lon radius pt).redis = redis)
    ∧ (∀ status results, provider = ProviderOutcome.response status results →
      status ≠ "OK" → status ≠ "ZERO_RESULTS" →
      (getNearbyPlaces apiKey pfx redis provider lat lon radius pt).places = []
      ∧ (getNearbyPlaces apiKey pfx redis provider lat lon radius pt).redis = redis) := by
  refine ⟨fun hav => ?_, fun hp => ?_, fun status results hp h1 h2 => ?_⟩
  · unfold getNearbyPlaces
    rw [if_pos hav]
  · subst hp
    by_cases hav : isAvailable apiKey = false
    · simp [getNearbyPlaces, hav]
    · rcases hmiss with h | h <;>
        simp [getNearbyPlaces, hav, h, fetchNearby]
  · subst hp
    by_cases hav : isAvailable apiKey = false
    · simp [getNearbyPlaces, hav]
    · rcases hmiss with h | h <;>
        simp [getNearbyPlaces, hav, h, fetchNearby, h1, h2]

/-- Witness for C9: a missing credential short-circuits; with a
credential and an empty store, a transport error and a REQUEST_DENIED
status each return an empty list and leave the store unchanged. -/
theorem get_nearby_places_failure_modes_witness :
    isAvailable none = false
    ∧ getNearbyPlaces none ("geo:") (some (fun _ => none))
        ProviderOutcome.transportError 0 0 2000 none
        = ⟨[], some (fun _ => none), false, false⟩
    ∧ (getNearbyPlaces (some ("k")) ("geo:") (some (fun _ => none))
        ProviderOutcome.transportError 0 0 2000 none).places = []
    ∧ (getNearbyPlaces (some ("k")) ("geo:") (some (fun _ => none))
        (ProviderOutcome.response ("REQUEST_DENIED") []) 0 0 2000 none).places = []
    ∧ (getNearbyPlaces (some ("k")) ("geo:") (some (fun _ => none))
        (ProviderOutcome.response ("REQUEST_DENIED") []) 0 0 2000 none).redis
        = some (fun _ => none) := by
  have W1 := get_nearby_places_failure_modes none ("geo:") (some (fun _ => none))
    ProviderOutcome.transportError 0 0 2000 none (Or.inl rfl)
  have W2 := get_nearby_places_failure_modes (some ("k")) ("geo:") (some (fun _ => none))
    ProviderOutcome.transportError 0 0 2000 none (Or.inl rfl)
  have W3 := get_nearby_places_failure_modes (some ("k")) ("geo:") (some (fun _ => none))
    (ProviderOutcome.response ("REQUEST_DENIED") []) 0 0 2000 none (Or.inl rfl)
  refine ⟨rfl, W1.1 rfl, (W2.2.1 rfl).1, ?_, ?_⟩
  · exact (W3.2.2 ("REQUEST_DENIED") [] rfl (by decide) (by decide)).1
  · exact (W3.2.2 ("REQUEST_DENIED") [] rfl (by decide) (by decide)).2

/-- C10: when the provider returns an empty place list the empty list is
written to the cache, but a later call with the same parameters treats
the cached empty list as a miss (the truthiness check fails) and
contacts the provider again, so empty areas are never served from the
cache. -/
theorem empty_cached_list_is_miss
    (apiKey : Option String) (pfx : String) (st : Store (List PlacePopularity))
    (status : String) (lat lon : ℚ) (radius : ℤ) (pt : Option String)
    (hav : isAvailable apiKey = true)
    (hst : status = "OK" ∨ status = "ZERO_RESULTS")
    (hmiss : st (buildKey pfx ("places") lat lon (nearbyExtra radius pt)) = none
      ∨ st (buildKey pfx ("places") lat lon (nearbyExtra radius pt)) = some []) :
    (getNearbyPlaces apiKey pfx (some st)
        (ProviderOutcome.response status []) lat lon radius pt).redis
      = some (st.update (buildKey pfx ("places") lat lon (nearbyExtra radius pt)) [])
    ∧ cacheGet (getNearbyPlaces apiKey pfx (some st)
          (ProviderOutcome.response status []) lat lon radius pt).redis
        pfx ("places") lat lon (nearbyExtra radius pt) = some []
    ∧ ∀ provider2 : ProviderOutcome,
        (getNearbyPlaces apiKey pfx
          (getNearbyPlaces apiKey pfx (some st)
            (ProviderOutcome.response status []) lat lon radius pt).redis
          provider2 lat lon radius pt).networkAttempted = true := by
  have hav' : ¬ (isAvailable apiKey = false) := by simp [hav]
  have h1 : getNearbyPlaces apiKey pfx (some st)
      (ProviderOutcome.response status []) lat lon radius pt
      = ⟨[], some (st.update (buildKey pfx ("places") lat lon (nearbyExtra radius pt)) []),
          true, true⟩ := by
    rcases hmiss with h | h <;> rcases hst with rfl | rfl <;>
      simp [getNearbyPlaces, hav', cacheGet, h, fetchNearby, cacheSet]
  refine ⟨by rw [h1], ?_, ?_⟩
  · rw [h1]
    show Store.update st _ [] _ = some []
    unfold Store.update
    rw [if_pos rfl]
  · intro provider2
    rw [h1]
    show (getNearbyPlaces apiKey pfx
      (some (st.update (buildKey pfx ("places") lat lon (nearbyExtra radius pt)) []))
      provider2 lat lon radius pt).networkAttempted = true
    have hcached : cacheGet
        (some (st.update (buildKey pfx ("places") lat lon (nearbyExtra radius pt)) []))
        pfx ("places") lat lon (nearbyExtra radius pt) = some [] := by
      show Store.update st _ [] _ = some []
      unfold Store.update
      rw [if_pos rfl]
    simp [getNearbyPlaces, hav', hcached, fetchNearby_network]

/-- Witness for C10: with a credential, an empty store and a
ZERO_RESULTS response, the empty list lands in the cache and the next
call still reaches the provider. -/
theorem empty_cached_list_is_miss_witness :
    isAvailable (some ("k")) = true
    ∧ cacheGet (getNearbyPlaces (some ("k")) ("geo:") (some (fun _ => none))
          (ProviderOutcome.response ("ZERO_RESULTS") []) 0 0 2000 none).redis
        ("geo:") ("places") 0 0 (nearbyExtra 2000 none) = some []
    ∧ (getNearbyPlaces (some ("k")) ("geo:")
        (getNearbyPlaces (some ("k")) ("geo:") (some (fun _ => none))
          (ProviderOutcome.response ("ZERO_RESULTS") []) 0 0 2000 none).redis
        ProviderOutcome.transportError 0 0 2000 none).networkAttempted = true := by
  have W := empty_cached_list_is_miss (some ("k")) ("geo:") (fun _ => none)
    ("ZERO_RESULTS") 0 0 2000 none rfl (Or.inr rfl) (Or.inl rfl)
  exact ⟨rfl, W.2.1, W.2.2 ProviderOutcome.transportError⟩

/-- The pricing signal carries weight 0.25 on every path. -/
theorem pricingSignal_weight (s : String) (n : ℕ) (e : Bool) :
    (pricingSignal s n e).weight = 0.25 := by
  cases e <;> rfl

/-- The competition signal carries weight 0.20 on every path. -/
theorem competitionSignal_weight (s : String) (cp : Option (List PlacePopularity)) :
    (competitionSignal s cp).weight = 0.20 := by
  cases cp <;> rfl

/-- The demographics signal carries weight 0.20 on every path. -/
theorem demographicsSignal_weight (s : String) (d : Option WilayaDemo) :
    (demographicsSignal s d).weight = 0.20 := by
  cases d <;> rfl

/-- The activity signal carries weight 0.20 on every path. -/
theorem activitySignal_weight (a : Option AreaActivityScore) :
    (activitySignal a).weight = 0.20 := by
  cases a <;> rfl

/-- The economic signal carries weight 0.15 on every path. -/
theorem economicSignal_weight (s : String) (m : ℕ) (e : Bool) :
    (economicSignal s m e).weight = 0.15 := rfl

/-- C1: for every sector, optional location, and database/geo
environment, the composite demand score equals
`round(clamp(0,100, Σ weighted_score))` over the five gathered signals,
the five weights sum to exactly 1.0, and the label follows the inclusive
thresholds 80 / 60 / 40 on the rounded score. -/
theorem demand_score_composite (env : DemandEnv) (sector : String)
    (code : Option String) :
    (computeDemandScore env sector code).score =
      pyround (min 100 (max 0
        (((computeDemandScore env sector code).signals.map
          (fun s => s.weighted_score)).sum)))
    ∧ ((computeDemandScore env sector code).signals.map (fun s => s.weight)).sum = 1
    ∧ (computeDemandScore env sector code).label =
      (if 80 ≤ (computeDemandScore env sector code).score then "Very High"
       else if 60 ≤ (computeDemandScore env sector code).score then "High"
       else if 40 ≤ (computeDemandScore env sector code).score then "Moderate"
       else "Low") := by
  refine ⟨?_, ?_, ?_⟩
  · have h := @pyround_clamp ℝ _ _ _ 0 100 (by norm_num)
      (((gatherSignals env sector).map (fun s => s.weighted_score)).sum)
    push_cast at h
    exact h
  · show ((gatherSignals env sector).map (fun s => s.weight)).sum = 1
    simp only [gatherSignals, List.map_cons, List.map_nil, List.sum_cons, List.sum_nil,
      pricingSignal_weight, competitionSignal_weight, demographicsSignal_weight,
      activitySignal_weight, economicSignal_weight]
    norm_num
  · rfl

/-- Stability of mergeSort on a class whose members all compare `le`:
filtering by the class commutes with sorting, i.e. the sort keeps the
original relative order of tied elements. -/
theorem mergeSort_filter_const {β : Type} (le : β → β → Bool) (l : List β) (p : β → Bool)
    (htrans : ∀ a b c, le a b = true → le b c = true → le a c = true)
    (htotal : ∀ a b, (le a b || le b a) = true)
    (hp : ∀ a b, p a = true → p b = true → le a b = true) :
    (l.mergeSort le).filter p = l.filter p := by
  have hpair : (l.filter p).Pairwise (fun a b => le a b = true) :=
    List.pairwise_of_forall_mem_list (fun a ha b hb =>
      hp a b (List.of_mem_filter ha) (List.of_mem_filter hb))
  have hsub : (l.filter p).Sublist (l.mergeSort le) :=
    List.sublist_mergeSort htrans htotal hpair (List.filter_sublist l)
  have hsub2 := List.Sublist.filter p hsub
  rw [List.filter_filter] at hsub2
  have hself : (fun a => p a && p a) = p := by
    funext a
    cases p a <;> rfl
  rw [hself] at hsub2
  have hlen : ((l.mergeSort le).filter p).length = (l.filter p).length :=
    (List.Perm.filter p (List.mergeSort_perm l le)).length_eq
  exact (List.Sublist.eq_of_length hsub2 hlen.symm).symm

/-- The opportunity comparison is transitive. -/
theorem oppLe_trans (a b c : SectorOpportunity)
    (hab : oppLe a b = true) (hbc : oppLe b c = true) : oppLe a c = true := by
  simp only [oppLe, decide_eq_true_eq] at *
  exact le_trans hbc hab

/-- The opportunity comparison is total. -/
theorem oppLe_total (a b : SectorOpportunity) : (oppLe a b || oppLe b a) = true := by
  simp only [oppLe, Bool.or_eq_true, decide_eq_true_eq]
  exact le_total b.score a.score

/-- The signal comparison is transitive. -/
theorem signalLe_trans (a b c : DemandSignal)
    (hab : signalLe a b = true) (hbc : signalLe b c = true) : signalLe a c = true := by
  simp only [signalLe, decide_eq_true_eq] at *
  exact le_trans hbc hab

/-- The signal comparison is total. -/
theorem signalLe_total (a b : DemandSignal) : (signalLe a b || signalLe b a) = true := by
  simp only [signalLe, Bool.or_eq_true, decide_eq_true_eq]
  exact le_total b.weighted_score a.weighted_score

/-- Filtering an enumerated list on the element and projecting the
element ignores the indices. -/
theorem enumFrom_filter_snd {β γ : Type} (q : β → Bool) (f : β → γ)
    (n : ℕ) (l : List β) :
    ((List.enumFrom n l).filter (fun ie => q ie.2)).map (fun ie => f ie.2)
      = (l.filter q).map f := by
  induction l generalizing n with
  | nil => rfl
  | cons hd tl ih =>
    simp only [List.enumFrom, List.filter_cons]
    cases hq : q hd
    · simp [hq, ih (n + 1)]
    · simp [hq, ih (n + 1)]

/-- Successor-indices of an enumeration form a contiguous range. -/
theorem enumFrom_map_fst_add_one {β : Type} (n : ℕ) (l : List β) :
    (List.enumFrom n l).map (fun ie => ie.1 + 1) = List.range' (n + 1) l.length := by
  induction l generalizing n with
  | nil => rfl
  | cons hd tl ih =>
    simp only [List.enumFrom, List.map_cons, List.length_cons, List.range'_succ]
    rw [ih (n + 1)]

/-- C7: get_sector_opportunities scores every sector profile, returns a
list sorted non-increasing by score whose ties keep the profile-table
iteration order (stable sort), assigns dense 1-based ranks with no
duplicates before truncating to `limit`, and each result carries at most
3 key-signal strings from its own sector's five signals ordered by
weighted contribution descending. -/
theorem sector_opportunities_ranking (env : DemandEnv) (code : Option String)
    (limit : ℕ) :
    List.Pairwise (fun a b : SectorOpportunity => b.score ≤ a.score)
      (getSectorOpportunities env code limit)
    ∧ (∀ s : ℤ,
        ((oppRanked env code).filter (fun o => decide (o.score = s))).map (fun o => o.sector)
        = ((oppBase env code).filter (fun o => decide (o.score = s))).map (fun o => o.sector))
    ∧ (oppRanked env code).map (fun o => o.rank) = List.range' 1 SECTOR_PROFILES.length
    ∧ (getSectorOpportunities env code limit).map (fun o => o.rank)
        = List.range' 1 (min limit SECTOR_PROFILES.length)
    ∧ (∀ p ∈ SECTOR_PROFILES, ∃ o ∈ oppRanked env code,
        o.sector = p.1 ∧ o.score = (computeDemandScore env p.1 code).score)
    ∧ (∀ o ∈ getSectorOpportunities env code limit,
        o.key_signals.length ≤ 3
        ∧ (∀ d ∈ o.key_signals,
            d ∈ ((computeDemandScore env o.sector code).signals.map (fun s => s.detail)))
        ∧ ∃ l, ((computeDemandScore env o.sector code).signals).Perm l
            ∧ List.Pairwise
                (fun a b : DemandSignal => b.weighted_score ≤ a.weighted_score) l
            ∧ o.key_signals = (l.take 3).map (fun s => s.detail)) := by
  have hg : oppRanked env code
      = (oppSorted env code).enum.map (fun ie => {ie.2 with rank := ie.1 + 1}) := rfl
  have hsorted0 : List.Pairwise (fun a b : SectorOpportunity => b.score ≤ a.score)
      (oppSorted env code) := by
    have h := List.sorted_mergeSort oppLe_trans oppLe_total (oppBase env code)
    exact h.imp (fun hab => by simpa [oppLe] using hab)
  have hsortedR : List.Pairwise (fun a b : SectorOpportunity => b.score ≤ a.score)
      (oppRanked env code) := by
    rw [hg, List.pairwise_map]
    have h4 := hsorted0
    rw [← List.enum_map_snd (oppSorted env code), List.pairwise_map] at h4
    exact h4
  have hlen12 : (oppSorted env code).length = SECTOR_PROFILES.length := by
    show ((oppBase env code).mergeSort oppLe).length = _
    rw [List.length_mergeSort]
    show (SECTOR_PROFILES.map _).length = _
    rw [List.length_map]
  have hc3 : (oppRanked env code).map (fun o => o.rank)
      = List.range' 1 SECTOR_PROFILES.length := by
    rw [hg, List.map_map]
    have hcomp : ((fun o : SectorOpportunity => o.rank)
        ∘ (fun ie : ℕ × SectorOpportunity => {ie.2 with rank := ie.1 + 1}))
        = fun ie : ℕ × SectorOpportunity => ie.1 + 1 := rfl
    rw [hcomp, List.enum_eq_enumFrom, enumFrom_map_fst_add_one, hlen12]
  refine ⟨List.Pairwise.sublist (List.take_sublist _ _) hsortedR, ?_, hc3, ?_, ?_, ?_⟩
  · intro s
    have hms := mergeSort_filter_const oppLe (oppBase env code)
      (fun o => decide (o.score = s)) oppLe_trans oppLe_total
      (fun a b ha hb => by
        simp only [decide_eq_true_eq] at ha hb
        simp only [oppLe, decide_eq_true_eq]
        rw [ha, hb])
    have hr : ((oppRanked env code).filter (fun o => decide (o.score = s))).map
          (fun o => o.sector)
        = ((oppSorted env code).filter (fun o => decide (o.score = s))).map
          (fun o => o.sector) := by
      rw [hg, List.filter_map, List.map_map, List.enum_eq_enumFrom]
      exact enumFrom_filter_snd (fun o : SectorOpportunity => decide (o.score = s))
        (fun o => o.sector) 0 (oppSorted env code)
    rw [hr]
    show ((((oppBase env code).mergeSort oppLe)).filter _).map _ = _
    rw [hms]
  · show ((oppRanked env code).take limit).map (fun o => o.rank) = _
    rw [List.map_take, hc3, List.range'_eq_map_range, ← List.map_take, List.take_range,
      ← List.range'_eq_map_range]
  · intro p hp
    have hbase : sectorOpportunityOf env code p.1 p.2 ∈ oppBase env code :=
      List.mem_map_of_mem (fun sp => sectorOpportunityOf env code sp.1 sp.2) hp
    have hsorted : sectorOpportunityOf env code p.1 p.2 ∈ oppSorted env code :=
      List.mem_mergeSort.mpr hbase
    have hmem2 : sectorOpportunityOf env code p.1 p.2
        ∈ (oppSorted env code).enum.map Prod.snd := by
      rw [List.enum_map_snd]
      exact hsorted
    obtain ⟨ie, hie, hsnd⟩ := List.mem_map.mp hmem2
    refine ⟨{ie.2 with rank := ie.1 + 1}, ?_, ?_, ?_⟩
    · rw [hg]
      exact List.mem_map_of_mem _ hie
    · show ie.2.sector = p.1
      rw [hsnd]
      rfl
    · show ie.2.score = _
      rw [hsnd]
      rfl
  · intro o ho
    have ho1 : o ∈ oppRanked env code := List.mem_of_mem_take ho
    rw [hg] at ho1
    obtain ⟨ie, hie, hoeq⟩ := List.mem_map.mp ho1
    have hie2 : ie.2 ∈ oppSorted env code := by
      have h := List.mem_map_of_mem Prod.snd hie
      rw [List.enum_map_snd] at h
      exact h
    have hbase : ie.2 ∈ oppBase env code := List.mem_mergeSort.mp hie2
    obtain ⟨sp, hsp, hspe⟩ := List.mem_map.mp hbase
    have hsec : o.sector = sp.1 := by
      rw [← hoeq]
      show ie.2.sector = sp.1
      rw [← hspe]
      rfl
    have hks : o.key_signals = keySignals (computeDemandScore env sp.1 code) := by
      rw [← hoeq]
      show ie.2.key_signals = _
      rw [← hspe]
      rfl
    refine ⟨?_, ?_, ?_⟩
    · rw [hks]
      unfold keySignals
      rw [List.length_map, List.length_take]
      exact min_le_left _ _
    · intro d hd
      rw [hks] at hd
      unfold keySignals at hd
      obtain ⟨sig, hsigmem, hdeq⟩ := List.mem_map.mp hd
      have hsigin : sig ∈ (computeDemandScore env sp.1 code).signals :=
        List.mem_mergeSort.mp (List.mem_of_mem_take hsigmem)
      rw [hsec]
      exact hdeq ▸ List.mem_map_of_mem _ hsigin
    · refine ⟨(computeDemandScore env sp.1 code).signals.mergeSort signalLe, ?_, ?_, ?_⟩
      · rw [hsec]
        exact (List.mergeSort_perm _ signalLe).symm
      · have h := List.sorted_mergeSort signalLe_trans signalLe_total
          (computeDemandScore env sp.1 code).signals
        exact h.imp (fun hab => by simpa [signalLe] using hab)
      · rw [hks]
        rfl

/-- Witness for C7: in the all-fallback environment, the agriculture
profile (a member of the table) yields an opportunity entry carrying its
own computed demand score. -/
theorem sector_opportunities_ranking_witness :
    (("agriculture", (⟨"Agriculture", 72, 70/100, 130/100, 105/100⟩ : SectorProfile))
      ∈ SECTOR_PROFILES)
    ∧ ∃ o ∈ oppRanked ⟨fun _ => 0, fun _ => false, fun _ => none, none, none, 0, false⟩ none,
        o.sector = "agriculture"
        ∧ o.score = (computeDemandScore
            ⟨fun _ => 0, fun _ => false, fun _ => none, none, none, 0, false⟩
            ("agriculture") none).score := by
  have hp : (("agriculture", (⟨"Agriculture", 72, 70/100, 130/100, 105/100⟩ : SectorProfile))
      ∈ SECTOR_PROFILES) := by
    unfold SECTOR_PROFILES
    exact List.mem_cons_self _ _
  exact ⟨hp, (sector_opportunities_ranking
    ⟨fun _ => 0, fun _ => false, fun _ => none, none, none, 0, false⟩ none 10).2.2.2.2.1
    ("agriculture", ⟨"Agriculture", 72, 70/100, 130/100, 105/100⟩) hp⟩

/-- Witness for C6: the four verdict bands at concrete inputs, through
the threshold characterisation. -/
theorem feasibility_verdict_thresholds_witness :
    feasibilityVerdict 80 (some 50) = "Highly Favorable"
    ∧ feasibilityVerdict 80 (some 10) = "Feasible"
    ∧ feasibilityVerdict 40 none = "Risky"
    ∧ feasibilityVerdict 20 none = "Not Recommended" := by
  refine ⟨?_, ?_, ?_, ?_⟩
  · refine (feasibility_verdict_thresholds 80 (some 50)).1.mpr ⟨by norm_num, ?_⟩
    intro a ha
    cases ha
    norm_num
  · refine (feasibility_verdict_thresholds 80 (some 10)).2.1.mpr ⟨by norm_num, ?_⟩
    intro hc
    have h10 := hc.2 10 rfl
    omega
  · exact (feasibility_verdict_thresholds 40 none).2.2.1.mpr ⟨by norm_num, by norm_num⟩
  · exact (feasibility_verdict_thresholds 20 none).2.2.2.mpr (by norm_num)

end Boussole
